import Mathlib

/-!
Shallow embedding of the validation and persistence layer of the
Flask-SQLAlchemy validations lab (src/server/models.py, src/server/app.py).

Python strings are `List Char`; a Python value reaching a validator is a
`PyVal` (a JSON body can hold a string, an integer or null, and `dict.get`
answers `None` for a missing key). A Python exception raised by a validator
is a `PyErr` (`ValueError` or `TypeError`), and a fallible computation
returns `Except PyErr`.
-/

namespace ValidationsLab

abbrev Str := List Char

/-- A Python value as it reaches the model layer from a parsed JSON body:
a string, an integer, or `None` (also the default of `dict.get`). -/
inductive PyVal where
  | str (s : Str)
  | int (n : Int)
  | null
deriving DecidableEq

/-- The two exception classes the validators can raise. -/
inductive PyErr where
  | valueError (msg : String)
  | typeError (msg : String)
deriving DecidableEq

/-- Python truthiness of a `PyVal`: `None` and the empty string and `0` are
falsy, everything else truthy. -/
def PyVal.truthy : PyVal → Bool
  | .str s => !s.isEmpty
  | .int n => n != 0
  | .null => false

/-- Python `len`: defined on strings, a `TypeError` elsewhere. -/
def pyLen : PyVal → Except PyErr Int
  | .str s => .ok s.length
  | .int _ => .error (.typeError "object of type 'int' has no len()")
  | .null => .error (.typeError "object of type 'NoneType' has no len()")

/-- Python substring containment, `sub in s` for strings: some contiguous
slice of `s` equals `sub`. -/
def containsSub (sub : Str) : Str → Bool
  | [] => sub.isEmpty
  | c :: rest => sub.isPrefixOf (c :: rest) || containsSub sub rest

/-- `containsSub` decides the infix (contiguous-substring) relation. -/
theorem containsSub_iff_infix (sub s : Str) :
    containsSub sub s = true ↔ sub <:+: s := by
  induction s with
  | nil =>
    simp [containsSub, List.isEmpty_iff, List.infix_nil]
  | cons c rest ih =>
    simp [containsSub, List.infix_cons_iff, ih]

/-- `Author.validate_name` (src/server/models.py): `if not name: raise
ValueError(...)`, otherwise the name is returned. -/
def validate_name (name : PyVal) : Except PyErr PyVal :=
  if !name.truthy then .error (.valueError "Author must have a name.")
  else .ok name

/-- The semantics of the pattern `\d{10}` under `re.fullmatch`: the whole
string is exactly ten decimal digits. -/
def fullmatchTenDigits (s : Str) : Bool :=
  s.length == 10 && s.all Char.isDigit

/-- `Author.validate_phone_number` (src/server/models.py): `None` is allowed
through; a string must fully match `\d{10}` or a `ValueError` is raised;
`re.fullmatch` on a non-string raises a `TypeError`. -/
def validate_phone_number (phone_number : PyVal) : Except PyErr PyVal :=
  match phone_number with
  | .null => .ok .null
  | .str s =>
      if !fullmatchTenDigits s then
        .error (.valueError "Phone number must be exactly ten digits.")
      else .ok (.str s)
  | .int _ => .error (.typeError "expected string or bytes-like object")

/-- `Post.validate_content` (src/server/models.py): `if not content or
len(content) < 250: raise ValueError(...)`; the `or` short-circuits, so
`len` only runs on a truthy value. -/
def validate_content (content : PyVal) : Except PyErr PyVal :=
  if !content.truthy then
    .error (.valueError "Post content must be at least 250 characters long.")
  else
    match pyLen content with
    | .error e => .error e
    | .ok l =>
        if l < 250 then
          .error (.valueError "Post content must be at least 250 characters long.")
        else .ok content

/-- `Post.validate_summary` (src/server/models.py): `if summary and
len(summary) > 250: raise ValueError(...)`; a falsy summary passes through. -/
def validate_summary (summary : PyVal) : Except PyErr PyVal :=
  if summary.truthy then
    match pyLen summary with
    | .error e => .error e
    | .ok l =>
        if l > 250 then
          .error (.valueError "Post summary cannot exceed 250 characters.")
        else .ok summary
  else .ok summary

def fiction : Str := "Fiction".toList

def nonFiction : Str := "Non-Fiction".toList

/-- `Post.validate_category` (src/server/models.py): `if category not in
['Fiction', 'Non-Fiction']: raise ValueError(...)`; list membership is by
equality, so any non-string (including `None`) fails the check. -/
def validate_category (category : PyVal) : Except PyErr PyVal :=
  if !([PyVal.str fiction, PyVal.str nonFiction].contains category) then
    .error (.valueError "Post category must be 'Fiction' or 'Non-Fiction'.")
  else .ok category

def clickbait_keywords : List Str :=
  ["Won't Believe".toList, "Secret".toList, "Top".toList, "Guess".toList]

/-- `Post.validate_title` (src/server/models.py): `if not any(keyword in
title for keyword in clickbait_keywords): raise ValueError(...)`; `keyword
in title` on a non-string title raises a `TypeError`. -/
def validate_title (title : PyVal) : Except PyErr PyVal :=
  match title with
  | .str t =>
      if !(clickbait_keywords.any (fun keyword => containsSub keyword t)) then
        .error (.valueError
          "Post title must contain one of: 'Won't Believe', 'Secret', 'Top', 'Guess'.")
      else .ok (.str t)
  | .int _ => .error (.typeError "argument of type 'int' is not iterable")
  | .null => .error (.typeError "argument of type 'NoneType' is not iterable")

/-- The `any` over the keyword list, read as the four-way disjunction of
substring facts. -/
theorem anyMarker_iff (t : Str) :
    clickbait_keywords.any (fun keyword => containsSub keyword t) = true ↔
      ("Won't Believe".toList <:+: t ∨ "Secret".toList <:+: t ∨
        "Top".toList <:+: t ∨ "Guess".toList <:+: t) := by
  simp only [clickbait_keywords, List.any_cons, List.any_nil,
    Bool.or_eq_true, Bool.or_false, containsSub_iff_infix]

/-- C1. For every string t, the Post.title validator accepts t if and only
if t contains at least one of the four markers "Won't Believe", "Secret",
"Top", "Guess" as a case-sensitive substring; otherwise it rejects with a
ValueError. -/
theorem title_validator_accepts_iff_marker (t : Str) :
    (validate_title (.str t) = Except.ok (.str t) ↔
      ("Won't Believe".toList <:+: t ∨ "Secret".toList <:+: t ∨
        "Top".toList <:+: t ∨ "Guess".toList <:+: t)) ∧
    (validate_title (.str t) = Except.ok (.str t) ∨
      validate_title (.str t) = Except.error (PyErr.valueError
        "Post title must contain one of: 'Won't Believe', 'Secret', 'Top', 'Guess'.")) := by
  rw [validate_title]
  by_cases h : clickbait_keywords.any (fun keyword => containsSub keyword t) = true
  · rw [← anyMarker_iff]
    simp [h]
  · rw [← anyMarker_iff]
    simp only [Bool.not_eq_true] at h
    simp [h]

/-- C2. For every candidate phone number, the Author.phone_number validator
accepts it iff it is absent (None) or is a string of exactly ten decimal
digits (the whole-string pattern d-ten); any present value that does not
fully match is rejected. -/
theorem phone_validator_accepts_iff_ten_digits (v : PyVal) :
    (∃ r, validate_phone_number v = Except.ok r) ↔
      (v = PyVal.null ∨
        ∃ s, v = PyVal.str s ∧ s.length = 10 ∧ ∀ c ∈ s, c.isDigit) := by
  cases v with
  | null => simp [validate_phone_number]
  | int n => simp [validate_phone_number]
  | str s =>
    simp only [validate_phone_number]
    by_cases h : fullmatchTenDigits s = true
    · have h2 := h
      simp only [fullmatchTenDigits, Bool.and_eq_true, beq_iff_eq,
        List.all_eq_true] at h2
      constructor
      · intro _
        exact Or.inr ⟨s, rfl, h2.1, h2.2⟩
      · intro _
        exact ⟨PyVal.str s, by simp [h]⟩
    · have h2 := h
      simp only [fullmatchTenDigits, Bool.and_eq_true, beq_iff_eq,
        List.all_eq_true, not_and_or] at h2
      simp only [Bool.not_eq_true] at h
      simp only [h, Bool.not_false, if_true]
      constructor
      · rintro ⟨r, hr⟩
        exact absurd hr (by simp)
      · rintro (hnull | ⟨s2, hs2, hlen, hdig⟩)
        · exact absurd hnull (by simp)
        · cases hs2
          rcases h2 with hl | hd
          · exact absurd hlen hl
          · exact absurd hdig (by simpa using hd)

/-- C3. For every string c, the Post.content validator accepts c iff
len(c) is at least 250; an absent (None) or shorter value is rejected. -/
theorem content_validator_accepts_iff_long (c : Str) :
    (validate_content (.str c) = Except.ok (.str c) ↔ 250 ≤ c.length) ∧
    (∃ m, validate_content PyVal.null = Except.error (PyErr.valueError m)) := by
  refine ⟨?_, ?_⟩
  · simp only [validate_content, PyVal.truthy, pyLen]
    by_cases hlen : 250 ≤ c.length
    · have hne : c.isEmpty = false := by
        cases c with
        | nil => simp at hlen
        | cons a l => simp
      have hok : ¬((c.length : Int) < 250) := by exact_mod_cast not_lt.mpr hlen
      simp [hne, hok, hlen]
    · push_neg at hlen
      by_cases hemp : c.isEmpty = true
      · simp [hemp]
        omega
      · simp only [Bool.not_eq_true] at hemp
        have hlt : (c.length : Int) < 250 := by exact_mod_cast hlen
        simp [hemp, hlt]
        omega
  · exact ⟨"Post content must be at least 250 characters long.",
      by simp [validate_content, PyVal.truthy]⟩

/-- The category validator, rewritten as a case split on the two legal
category strings. -/
theorem validate_category_eq (v : PyVal) :
    validate_category v =
      (if v = PyVal.str "Fiction".toList ∨ v = PyVal.str "Non-Fiction".toList
        then Except.ok v
        else Except.error (PyErr.valueError
          "Post category must be 'Fiction' or 'Non-Fiction'.")) := by
  by_cases h : v = PyVal.str "Fiction".toList ∨ v = PyVal.str "Non-Fiction".toList
  · rw [if_pos h]
    rcases h with h | h <;> simp [validate_category, fiction, nonFiction, h]
  · rw [if_neg h]
    push_neg at h
    simp only [validate_category, fiction, nonFiction]
    rw [if_pos]
    simp [List.contains_cons]
    exact ⟨h.1, h.2⟩

/-- C4. For every candidate value v, the Post.category validator accepts v
iff v is exactly the string "Fiction" or exactly the string "Non-Fiction";
every other value, including an absent value (None), is rejected with a
ValueError. -/
theorem category_validator_accepts_iff_fiction (v : PyVal) :
    (validate_category v = Except.ok v ↔
      (v = PyVal.str "Fiction".toList ∨ v = PyVal.str "Non-Fiction".toList)) ∧
    (validate_category v = Except.ok v ∨
      ∃ m, validate_category v = Except.error (PyErr.valueError m)) := by
  rw [validate_category_eq]
  by_cases h : v = PyVal.str "Fiction".toList ∨ v = PyVal.str "Non-Fiction".toList
  · rw [if_pos h]
    exact ⟨⟨fun _ => h, fun _ => rfl⟩, Or.inl rfl⟩
  · rw [if_neg h]
    exact ⟨⟨fun hx => absurd hx (by simp), fun hx => absurd hx h⟩, Or.inr ⟨_, rfl⟩⟩

/-! Entity construction and the persistence gateway.

SQLAlchemy fires each `@validates` hook as the model constructor assigns the
keyword arguments the handler passes, in the order they are written in
`app.py`; the first exception aborts construction. `Post.author_id` has no
validator. -/

structure AuthorRow where
  id : Nat
  name : PyVal
  phone_number : PyVal
deriving DecidableEq

structure PostRow where
  id : Nat
  title : PyVal
  content : PyVal
  summary : PyVal
  category : PyVal
  author_id : PyVal
deriving DecidableEq

/-- The persisted state: the authors and posts tables, with the next
surrogate ids storage would assign. -/
structure DB where
  authors : List AuthorRow
  posts : List PostRow
  nextAuthorId : Nat
  nextPostId : Nat
deriving DecidableEq

/-- `Author(name=..., phone_number=...)`: the validators run in the order
the handler passes the keyword arguments. -/
def mkAuthor (name phone_number : PyVal) : Except PyErr (PyVal × PyVal) := do
  let n ← validate_name name
  let p ← validate_phone_number phone_number
  pure (n, p)

/-- `Post(title=..., content=..., summary=..., category=..., author_id=...)`:
the validators run in that keyword order; `author_id` has no validator. -/
def mkPost (title content summary category author_id : PyVal) :
    Except PyErr (PyVal × PyVal × PyVal × PyVal × PyVal) := do
  let t ← validate_title title
  let c ← validate_content content
  let s ← validate_summary summary
  let k ← validate_category category
  pure (t, c, s, k, author_id)

/-- Modelled from the spec: the Persistence Gateway (an external
collaborator) enforces `unique=True` and `nullable=False` on `Author.name`
atomically at commit time, answering an IntegrityViolation (`IntegrityError`)
on failure; on success the row is stored with a fresh surrogate id. -/
def commitAuthor (db : DB) (name phone_number : PyVal) : Except Unit DB :=
  if name = PyVal.null ∨ db.authors.any (fun a => a.name == name) then
    .error ()
  else
    .ok { db with
      authors := db.authors ++ [⟨db.nextAuthorId, name, phone_number⟩],
      nextAuthorId := db.nextAuthorId + 1 }

/-- Whether `author_id` references an existing Author row. -/
def referencesAuthor (db : DB) (author_id : PyVal) : Bool :=
  db.authors.any (fun a => PyVal.int a.id == author_id)

/-- Modelled from the spec: the Persistence Gateway enforces the foreign key
`Post.author_id → authors.id` and its `nullable=False` at commit time,
answering an IntegrityViolation when the referenced Author does not exist
(a null or non-referencing id fails); on success the row is stored. -/
def commitPost (db : DB) (title content summary category author_id : PyVal) :
    Except Unit DB :=
  if referencesAuthor db author_id then
    .ok { db with
      posts := db.posts ++ [⟨db.nextPostId, title, content, summary, category, author_id⟩],
      nextPostId := db.nextPostId + 1 }
  else .error ()

/-! The request handlers of src/server/app.py. A parsed JSON body is an
association list of keys and values; `request.get_json()` answers `none`
when there is no JSON body at all. -/

abbrev JsonObj := List (String × PyVal)

/-- Python `data.get(k)`: the value under `k`, or `None` when absent. -/
def jget (data : JsonObj) (k : String) : PyVal :=
  match data.find? (fun kv => kv.fst == k) with
  | some kv => kv.snd
  | none => PyVal.null

/-- The observable part of an HTTP response: the status code, and the error
message (the `{"error": ...}` body) when the request failed. -/
structure Response where
  status : Nat
  error : Option String
deriving DecidableEq

/-- `create_author` (src/server/app.py): a missing or empty body is refused
up front; a `ValueError` from a validator maps to 400, an `IntegrityError`
from commit maps to 400 with a fixed message, any other exception maps to
500; every failure rolls the transaction back, leaving the state unchanged. -/
def create_author (db : DB) (body : Option JsonObj) : Response × DB :=
  match body with
  | none => (⟨400, some "No input data provided."⟩, db)
  | some data =>
    if data.isEmpty then (⟨400, some "No input data provided."⟩, db)
    else
      match mkAuthor (jget data "name") (jget data "phone_number") with
      | .error (.valueError m) => (⟨400, some m⟩, db)
      | .error (.typeError m) => (⟨500, some m⟩, db)
      | .ok (n, p) =>
        match commitAuthor db n p with
        | .error _ => (⟨400, some "Author with this name already exists."⟩, db)
        | .ok db2 => (⟨201, none⟩, db2)

/-- `create_post` (src/server/app.py): same shape as `create_author`, with
the post validators and the foreign-key commit. -/
def create_post (db : DB) (body : Option JsonObj) : Response × DB :=
  match body with
  | none => (⟨400, some "No input data provided."⟩, db)
  | some data =>
    if data.isEmpty then (⟨400, some "No input data provided."⟩, db)
    else
      match mkPost (jget data "title") (jget data "content") (jget data "summary")
          (jget data "category") (jget data "author_id") with
      | .error (.valueError m) => (⟨400, some m⟩, db)
      | .error (.typeError m) => (⟨500, some m⟩, db)
      | .ok (t, c, s, k, aid) =>
        match commitPost db t c s k aid with
        | .error _ => (⟨400, some "Failed to create post. Ensure author_id is valid."⟩, db)
        | .ok db2 => (⟨201, none⟩, db2)

/-- C10. For every POST /authors or POST /posts request whose body parses
to an empty JSON object or to no JSON at all, the handler answers HTTP 400
with the message "No input data provided.", leaving the state unchanged
(no entity is constructed and no validator runs). -/
theorem empty_body_rejected (db : DB) :
    create_author db none = (⟨400, some "No input data provided."⟩, db) ∧
    create_author db (some []) = (⟨400, some "No input data provided."⟩, db) ∧
    create_post db none = (⟨400, some "No input data provided."⟩, db) ∧
    create_post db (some []) = (⟨400, some "No input data provided."⟩, db) :=
  ⟨rfl, rfl, rfl, rfl⟩

/-- C9. For every POST /posts request whose JSON body is non-empty but
omits title (so `data.get('title')` is None), the title validator raises a
TypeError rather than a ValueError, so the handler's ValueError branch is
bypassed and the request is answered with HTTP 500, not 400, with the
state rolled back. -/
theorem missing_title_gives_500 (db : DB) (data : JsonObj)
    (hne : data ≠ []) (ht : jget data "title" = PyVal.null) :
    validate_title PyVal.null =
      Except.error (PyErr.typeError "argument of type 'NoneType' is not iterable") ∧
    (create_post db (some data)).1.status = 500 ∧
    (create_post db (some data)).2 = db := by
  have hemp : data.isEmpty = false := by
    cases data with
    | nil => exact absurd rfl hne
    | cons a l => rfl
  refine ⟨rfl, ?_, ?_⟩ <;>
    simp [create_post, hemp, ht, mkPost, validate_title, Bind.bind, Except.bind]

/-- A concrete no-title request: the body carries only an author_id, the
handler answers 500 and the database is unchanged. -/
theorem missing_title_gives_500_witness :
    validate_title PyVal.null =
      Except.error (PyErr.typeError "argument of type 'NoneType' is not iterable") ∧
    (create_post ⟨[], [], 1, 1⟩ (some [("author_id", PyVal.int 1)])).1.status = 500 ∧
    (create_post ⟨[], [], 1, 1⟩ (some [("author_id", PyVal.int 1)])).2 = ⟨[], [], 1, 1⟩ :=
  missing_title_gives_500 ⟨[], [], 1, 1⟩ [("author_id", PyVal.int 1)]
    (by decide) (by decide)

/-- The name validator passes the value through unchanged when it accepts. -/
theorem validate_name_ok {v n : PyVal} (h : validate_name v = Except.ok n) :
    n = v := by
  by_cases ht : v.truthy = true
  · simp [validate_name, ht] at h
    exact h.symm
  · simp only [Bool.not_eq_true] at ht
    simp [validate_name, ht] at h

/-- Splitting a successful author construction into its two validator runs. -/
theorem mkAuthor_ok {a b n p : PyVal}
    (h : mkAuthor a b = Except.ok (n, p)) :
    validate_name a = Except.ok n ∧ validate_phone_number b = Except.ok p := by
  rcases h1 : validate_name a with e | n1
  · simp [mkAuthor, h1, Bind.bind, Except.bind] at h
  · rcases h2 : validate_phone_number b with e | p1
    · simp [mkAuthor, h1, h2, Bind.bind, Except.bind] at h
    · simp only [mkAuthor, h1, h2, Bind.bind, Except.bind, pure, Except.pure,
        Except.ok.injEq, Prod.mk.injEq] at h
      exact ⟨by rw [h.1], by rw [h.2]⟩

/-- A successful author commit appends exactly one row with the given name. -/
theorem commitAuthor_ok {db db2 : DB} {n p : PyVal}
    (h : commitAuthor db n p = Except.ok db2) :
    db2 = { db with
      authors := db.authors ++ [⟨db.nextAuthorId, n, p⟩],
      nextAuthorId := db.nextAuthorId + 1 } := by
  rw [commitAuthor] at h
  split at h
  · simp at h
  · injection h with h
    exact h.symm

/-- C5. For every pair of POST /authors requests carrying an identical
body (in particular an identical name), when the first one succeeds with
201, the second attempt hits the uniqueness constraint on Author.name and
is answered with HTTP 400 and the generic message "Author with this name
already exists."; the state is rolled back, so the first Author remains
persisted unchanged. -/
theorem duplicate_author_rejected (db : DB) (data : JsonObj)
    (h : (create_author db (some data)).1.status = 201) :
    (create_author (create_author db (some data)).2 (some data)).1 =
      ⟨400, some "Author with this name already exists."⟩ ∧
    (create_author (create_author db (some data)).2 (some data)).2 =
      (create_author db (some data)).2 ∧
    ∃ a ∈ (create_author db (some data)).2.authors, a.name = jget data "name" := by
  cases hemp : data.isEmpty with
  | true => simp [create_author, hemp] at h
  | false =>
    rcases hmk : mkAuthor (jget data "name") (jget data "phone_number") with e | np
    · rcases e with m | m <;> simp [create_author, hemp, hmk] at h
    · obtain ⟨n, p⟩ := np
      rcases hcm : commitAuthor db n p with u | db2
      · simp [create_author, hemp, hmk, hcm] at h
      · have hres : create_author db (some data) = (⟨201, none⟩, db2) := by
          simp [create_author, hemp, hmk, hcm]
        have hdb2 := commitAuthor_ok hcm
        have hn : n = jget data "name" := validate_name_ok (mkAuthor_ok hmk).1
        have hdup : db2.authors.any (fun a => a.name == n) = true := by
          rw [hdb2]
          simp [List.any_append]
        have hcm2 : commitAuthor db2 n p = Except.error () := by
          simp [commitAuthor, hdup]
        have hres2 : create_author db2 (some data) =
            (⟨400, some "Author with this name already exists."⟩, db2) := by
          simp [create_author, hemp, hmk, hcm2]
        rw [hres]
        refine ⟨by rw [hres2], by rw [hres2], ?_⟩
        refine ⟨⟨db.nextAuthorId, n, p⟩, ?_, hn⟩
        rw [hdb2]
        simp

/-- A concrete duplicate-name pair: creating the author "Leo" twice, the
first request answers 201, the second 400 with the generic message and an
unchanged state, and the first row survives. -/
theorem duplicate_author_rejected_witness :
    (create_author
        (create_author ⟨[], [], 1, 1⟩ (some [("name", PyVal.str "Leo".toList)])).2
        (some [("name", PyVal.str "Leo".toList)])).1 =
      ⟨400, some "Author with this name already exists."⟩ ∧
    (create_author
        (create_author ⟨[], [], 1, 1⟩ (some [("name", PyVal.str "Leo".toList)])).2
        (some [("name", PyVal.str "Leo".toList)])).2 =
      (create_author ⟨[], [], 1, 1⟩ (some [("name", PyVal.str "Leo".toList)])).2 ∧
    ∃ a ∈ (create_author ⟨[], [], 1, 1⟩ (some [("name", PyVal.str "Leo".toList)])).2.authors,
      a.name = jget [("name", PyVal.str "Leo".toList)] "name" :=
  duplicate_author_rejected ⟨[], [], 1, 1⟩ [("name", PyVal.str "Leo".toList)] (by decide)

/-- A successful post construction passes `author_id` through unchanged
(it has no validator). -/
theorem mkPost_ok_author_id {t0 c0 s0 k0 a0 t c s k aid : PyVal}
    (h : mkPost t0 c0 s0 k0 a0 = Except.ok (t, c, s, k, aid)) :
    aid = a0 := by
  rcases h1 : validate_title t0 with e | t1
  · simp [mkPost, h1, Bind.bind, Except.bind] at h
  · rcases h2 : validate_content c0 with e | c1
    · simp [mkPost, h1, h2, Bind.bind, Except.bind] at h
    · rcases h3 : validate_summary s0 with e | s1
      · simp [mkPost, h1, h2, h3, Bind.bind, Except.bind] at h
      · rcases h4 : validate_category k0 with e | k1
        · simp [mkPost, h1, h2, h3, h4, Bind.bind, Except.bind] at h
        · simp only [mkPost, h1, h2, h3, h4, Bind.bind, Except.bind, pure,
            Except.pure, Except.map, Functor.map, Except.ok.injEq,
            Prod.mk.injEq] at h
          exact h.2.2.2.2.symm

/-- C6, counterexample to the claim as stated: with an empty database
(so author_id 1 references no Author), a POST /posts body carrying only
that author_id is answered with HTTP 500, not 400, because the missing
title raises a TypeError before the foreign key is ever checked. No Post
row is created. -/
theorem post_bad_author_counterexample :
    (⟨[], [], 1, 1⟩ : DB).authors = [] ∧
    (create_post ⟨[], [], 1, 1⟩ (some [("author_id", PyVal.int 1)])).1.status = 500 ∧
    ¬(create_post ⟨[], [], 1, 1⟩ (some [("author_id", PyVal.int 1)])).1.status = 400 ∧
    (create_post ⟨[], [], 1, 1⟩ (some [("author_id", PyVal.int 1)])).2.posts = [] := by
  decide

/-- C6, amended. For every POST /posts request with a non-empty body whose
title, content, summary and category all pass their validators, but whose
author_id does not reference an existing Author, the commit fails on the
foreign key, the handler answers HTTP 400 with the fixed message, and the
transaction is rolled back: no Post row is created and the state is
unchanged. -/
theorem post_bad_author_rejected (db : DB) (data : JsonObj)
    (hne : data ≠ [])
    (hmk : ∃ t c s k aid, mkPost (jget data "title") (jget data "content")
      (jget data "summary") (jget data "category") (jget data "author_id") =
        Except.ok (t, c, s, k, aid))
    (href : referencesAuthor db (jget data "author_id") = false) :
    (create_post db (some data)).1 =
      ⟨400, some "Failed to create post. Ensure author_id is valid."⟩ ∧
    (create_post db (some data)).2 = db := by
  have hemp : data.isEmpty = false := by
    cases data with
    | nil => exact absurd rfl hne
    | cons a l => rfl
  obtain ⟨t, c, s, k, aid, hmk⟩ := hmk
  have haid : aid = jget data "author_id" := mkPost_ok_author_id hmk
  have hcm : commitPost db t c s k aid = Except.error () := by
    rw [commitPost, haid, href]
    simp
  constructor <;> simp [create_post, hemp, hmk, hcm]

set_option maxRecDepth 8000 in
/-- A concrete bad-author_id request whose fields are otherwise valid: the
handler answers 400 with the fixed message and the empty database is
unchanged. -/
theorem post_bad_author_rejected_witness :
    (create_post ⟨[], [], 1, 1⟩ (some
      [("title", PyVal.str "Top reasons".toList),
       ("content", PyVal.str (List.replicate 250 'a')),
       ("category", PyVal.str "Fiction".toList),
       ("author_id", PyVal.int 7)])).1 =
      ⟨400, some "Failed to create post. Ensure author_id is valid."⟩ ∧
    (create_post ⟨[], [], 1, 1⟩ (some
      [("title", PyVal.str "Top reasons".toList),
       ("content", PyVal.str (List.replicate 250 'a')),
       ("category", PyVal.str "Fiction".toList),
       ("author_id", PyVal.int 7)])).2 = ⟨[], [], 1, 1⟩ :=
  post_bad_author_rejected ⟨[], [], 1, 1⟩
    [("title", PyVal.str "Top reasons".toList),
     ("content", PyVal.str (List.replicate 250 'a')),
     ("category", PyVal.str "Fiction".toList),
     ("author_id", PyVal.int 7)]
    (by decide)
    ⟨PyVal.str "Top reasons".toList, PyVal.str (List.replicate 250 'a'),
      PyVal.null, PyVal.str "Fiction".toList, PyVal.int 7, by rfl⟩
    (by rfl)

/-- Modelled from the spec: no delete route exists in app.py, but
`Author.posts` declares `cascade='all, delete-orphan'` (src/server/models.py),
and the spec reads it as: deleting an Author removes the Author row and
every Post it owns in the same operation, leaving other rows untouched. -/
def delete_author (db : DB) (aid : Nat) : DB :=
  { db with
    authors := db.authors.filter (fun a => a.id != aid),
    posts := db.posts.filter (fun p => p.author_id != PyVal.int aid) }

/-- C7. For every Author deletion, every Post owned by that Author is
deleted in the same operation: after the delete no persisted Post
references the deleted Author (no orphan rows remain), the Author row
itself is gone, and no Post of another Author was invented (surviving
posts all come from the old table). -/
theorem delete_author_cascades (db : DB) (aid : Nat) :
    (∀ p ∈ (delete_author db aid).posts, p.author_id ≠ PyVal.int aid) ∧
    (∀ a ∈ (delete_author db aid).authors, a.id ≠ aid) ∧
    (∀ p ∈ (delete_author db aid).posts, p ∈ db.posts) ∧
    (∀ p ∈ db.posts, p.author_id ≠ PyVal.int aid → p ∈ (delete_author db aid).posts) := by
  refine ⟨?_, ?_, ?_, ?_⟩
  · intro p hp
    rw [delete_author] at hp
    simp only [List.mem_filter, bne_iff_ne, ne_eq] at hp
    exact hp.2
  · intro a ha
    rw [delete_author] at ha
    simp only [List.mem_filter, bne_iff_ne, ne_eq] at ha
    exact ha.2
  · intro p hp
    rw [delete_author] at hp
    exact (List.mem_filter.mp hp).1
  · intro p hp hne
    rw [delete_author]
    exact List.mem_filter.mpr ⟨hp, by simpa using hne⟩

/-! Serialization (SerializerMixin with the serialize_rules of
src/server/models.py). The output is a finite JSON tree, so serialization
terminates with an acyclic result by construction. -/

/-- A JSON-like serialized value. -/
inductive JVal where
  | prim (v : PyVal)
  | obj (fields : List (String × JVal))
  | arr (elems : List JVal)

/-- The scalar columns of an Author, as serialized. -/
def authorFields (a : AuthorRow) : List (String × JVal) :=
  [("id", .prim (.int a.id)), ("name", .prim a.name),
   ("phone_number", .prim a.phone_number)]

/-- The scalar columns of a Post, as serialized. -/
def postFields (p : PostRow) : List (String × JVal) :=
  [("id", .prim (.int p.id)), ("title", .prim p.title),
   ("content", .prim p.content), ("summary", .prim p.summary),
   ("category", .prim p.category), ("author_id", .prim p.author_id)]

/-- The posts owned by the author with id `aid`. -/
def postsOf (db : DB) (aid : Nat) : List PostRow :=
  db.posts.filter (fun p => p.author_id == PyVal.int aid)

/-- Modelled from the spec: `Author.to_dict` under
`serialize_rules = ('-posts.author',)` — the author's columns plus its
posts, each nested Post carrying its own columns but not its `author`
back-reference. -/
def author_to_dict (db : DB) (a : AuthorRow) : JVal :=
  .obj (authorFields a ++
    [("posts", .arr ((postsOf db a.id).map (fun p => JVal.obj (postFields p))))])

/-- Modelled from the spec: `Post.to_dict` under
`serialize_rules = ('-author.posts',)` — the post's columns plus its
author, the nested Author carrying its own columns but not its `posts`
back-reference. -/
def post_to_dict (db : DB) (p : PostRow) : JVal :=
  .obj (postFields p ++
    [("author",
      match db.authors.find? (fun a => PyVal.int a.id == p.author_id) with
      | some a => JVal.obj (authorFields a)
      | none => JVal.prim PyVal.null)])

/-- The value under key `k` of a serialized object. -/
def lookupField (j : JVal) (k : String) : Option JVal :=
  match j with
  | .obj fields => (fields.find? (fun kv => kv.fst == k)).map Prod.snd
  | _ => none

/-- The nested post objects of a serialized Author. -/
def nestedPosts (j : JVal) : List JVal :=
  match lookupField j "posts" with
  | some (.arr es) => es
  | _ => []

/-- The nested author object of a serialized Post, when there is one. -/
def nestedAuthor (j : JVal) : List JVal :=
  match lookupField j "author" with
  | some (JVal.obj fs) => [JVal.obj fs]
  | _ => []

/-- C8. Serialization excludes the cyclic back-reference: every nested
Post inside a serialized Author has no `author` field (while keeping its
own columns, e.g. `title`), and the nested Author inside a serialized Post
has no `posts` field (while keeping its own columns, e.g. `name`); the
output is a finite tree, so serialization terminates acyclically. -/
theorem serialize_excludes_backrefs (db : DB) (a : AuthorRow) (p : PostRow) :
    (∀ e ∈ nestedPosts (author_to_dict db a),
      lookupField e "author" = none ∧ lookupField e "title" ≠ none) ∧
    (∀ u ∈ nestedAuthor (post_to_dict db p),
      lookupField u "posts" = none ∧ lookupField u "name" ≠ none) := by
  constructor
  · intro e he
    have hlist : nestedPosts (author_to_dict db a) =
        (postsOf db a.id).map (fun q => JVal.obj (postFields q)) := rfl
    rw [hlist] at he
    obtain ⟨q, _, rfl⟩ := List.mem_map.mp he
    exact ⟨rfl, by simp [lookupField, postFields]⟩
  · intro u hu
    rw [nestedAuthor, post_to_dict] at hu
    rcases hfind : db.authors.find? (fun a2 => PyVal.int a2.id == p.author_id) with _ | a2
    · rw [hfind] at hu
      simp [lookupField, postFields, List.find?] at hu
    · rw [hfind] at hu
      have hu2 : u = JVal.obj (authorFields a2) := by
        simpa [lookupField, postFields, List.find?] using hu
      rw [hu2]
      exact ⟨rfl, by simp [lookupField, authorFields]⟩

end ValidationsLab
